import Mathlib

/-!
Shallow embedding of the checkout / cart-merge / payment-reconciliation core of
the fastapi-ecommerce backend (app/crud/order.py, app/crud/cart_item.py,
app/crud/product.py, app/crud/payment.py, app/services/cart_service.py,
app/services/payment_service.py, app/services/order_service.py), together with
theorems settling the spec claims about that core.

Rows of the relational store are Lean structures; the store itself is a record
of row lists.  Each Python operation becomes a pure function from a `Store`
(plus its arguments and, where the database would assign one, a fresh id) to a
new `Store` and a result.  An exception raised before `commit` leaves the
database unchanged, so a failing operation returns the input store untouched
together with an error value.  Monetary values (`Numeric(10,2)`) are rationals;
`stock_quantity` is an integer (Python int); quantities are naturals (the
request schemas constrain `quantity` with `ge=1`).
-/

namespace ECom

/-- Product row (app/models/product.py); only the columns the core reads. -/
structure Product where
  id : Nat
  name : String
  price : ℚ
  stock_quantity : Int
  is_active : Bool
deriving DecidableEq

/-- Address row (app/models/address.py); only the columns checkout reads. -/
structure Address where
  id : Nat
  user_id : Nat
deriving DecidableEq

/-- Cart row (app/models/cart.py). -/
structure Cart where
  id : Nat
  user_id : Option Nat
  session_id : Option String
deriving DecidableEq

/-- Cart line row (app/models/cart_item.py). -/
structure CartItem where
  id : Nat
  cart_id : Nat
  product_id : Nat
  quantity : Nat
deriving DecidableEq

/-- Order.status enum (app/models/order.py). -/
inductive OrderStatus where
  | pending | paid | shipped | delivered | cancelled
deriving DecidableEq

/-- Order.payment_status enum (app/models/order.py). -/
inductive PayState where
  | pending | success | failed
deriving DecidableEq

/-- Payment.status enum (app/models/payment.py). -/
inductive PaymentStatus where
  | pending | completed | failed
deriving DecidableEq

/-- Order row (app/models/order.py). -/
structure Order where
  id : Nat
  user_id : Nat
  shipping_address_id : Nat
  billing_address_id : Nat
  order_number : String
  total_amount : ℚ
  status : OrderStatus
  tx_ref : String
  payment_status : PayState
deriving DecidableEq

/-- OrderItem row, as constructed in OrderCrud.create_order (order_id,
product_id, unit_price, quantity). -/
structure OrderItem where
  order_id : Nat
  product_id : Nat
  unit_price : ℚ
  quantity : Nat
deriving DecidableEq

/-- Payment row (app/models/payment.py); `paid_at` is an abstract timestamp. -/
structure Payment where
  id : Nat
  order_id : Nat
  amount : ℚ
  status : PaymentStatus
  transaction_id : String
  paid_at : Option Nat
deriving DecidableEq

/-- The relational store: one list of rows per table touched by the core. -/
structure Store where
  products : List Product
  addresses : List Address
  carts : List Cart
  cart_items : List CartItem
  orders : List Order
  order_items : List OrderItem
  payments : List Payment
deriving DecidableEq

/-- Replace the first element satisfying `p` by its image under `f`.  This is
how an ORM mutation of the single row returned by `db.scalar` / `db.get` acts
on the row list. -/
def updateFirst (p : α → Bool) (f : α → α) : List α → List α
  | [] => []
  | x :: xs => if p x then f x :: xs else x :: updateFirst p f xs

instance {ε α : Type} [DecidableEq ε] [DecidableEq α] : DecidableEq (Except ε α) :=
  fun x y =>
    match x, y with
    | .ok a, .ok b =>
      if h : a = b then isTrue (by rw [h]) else isFalse (by intro hc; cases hc; exact h rfl)
    | .error a, .error b =>
      if h : a = b then isTrue (by rw [h]) else isFalse (by intro hc; cases hc; exact h rfl)
    | .ok _, .error _ => isFalse (by intro hc; cases hc)
    | .error _, .ok _ => isFalse (by intro hc; cases hc)

/-! ### Read queries (app/crud) -/

/-- ProductCrud.get_product_by_id: select by id, no is_active filter. -/
def get_product_by_id (s : Store) (pid : Nat) : Option Product :=
  s.products.find? (fun p => decide (p.id = pid))

/-- AddressCrud.get_single_address. -/
def get_single_address (s : Store) (aid : Nat) : Option Address :=
  s.addresses.find? (fun a => decide (a.id = aid))

/-- CartCrud.get_cart_by_user_id. -/
def get_cart_by_user_id (s : Store) (uid : Nat) : Option Cart :=
  s.carts.find? (fun c => decide (c.user_id = some uid))

/-- CartCrud.get_cart_by_session_id. -/
def get_cart_by_session_id (s : Store) (sid : String) : Option Cart :=
  s.carts.find? (fun c => decide (c.session_id = some sid))

/-- CartCrud.get_cart_item_by_product. -/
def get_cart_item_by_product (s : Store) (cartId pid : Nat) : Option CartItem :=
  s.cart_items.find? (fun it => decide (it.cart_id = cartId ∧ it.product_id = pid))

/-- PaymentCrud.get_payment_by_transaction_id (transaction ids are unique, so
the first match is the only match). -/
def get_payment_by_transaction_id (s : Store) (txn : String) : Option Payment :=
  s.payments.find? (fun p => decide (p.transaction_id = txn))

/-! ### Cart operations (CartService / CartCrud) -/

/-- Errors raised by CartService.add_item (ProductException messages
"product not found" and "Product out of stock"). -/
inductive CartError where
  | productNotFound | outOfStock
deriving DecidableEq

/-- CartService.add_item.  `newId` stands for the auto-increment key the
database would assign to an inserted row.  The source looks the product up by
id only (no is_active filter), compares stock with the requested quantity,
then either increments the existing (cart, product) line via
CartCrud.update_existing_cart_item or inserts a new line via
CartCrud.add_new_cart_item. -/
def add_item (s : Store) (cartId product_id : Nat) (quantity : Nat) (newId : Nat) :
    Store × Except CartError CartItem :=
  match get_product_by_id s product_id with
  | none => (s, .error .productNotFound)
  | some product =>
    if product.stock_quantity < (quantity : Int) then
      (s, .error .outOfStock)
    else
      match get_cart_item_by_product s cartId product.id with
      | some existing =>
        let items := s.cart_items.map (fun it =>
          if it.cart_id = cartId ∧ it.product_id = product.id then
            { it with quantity := it.quantity + quantity }
          else it)
        ({ s with cart_items := items },
         .ok { existing with quantity := existing.quantity + quantity })
      | none =>
        let newItem : CartItem :=
          { id := newId, cart_id := cartId, product_id := product.id, quantity := quantity }
        ({ s with cart_items := s.cart_items ++ [newItem] }, .ok newItem)

/-- CartCrud.update_item: UPDATE cartitems SET quantity WHERE id AND cart_id. -/
def update_item (s : Store) (cartId itemId quantity : Nat) : Store × Option CartItem :=
  let items := s.cart_items.map (fun it =>
    if it.id = itemId ∧ it.cart_id = cartId then { it with quantity := quantity } else it)
  match s.cart_items.find? (fun it => decide (it.id = itemId ∧ it.cart_id = cartId)) with
  | some it => ({ s with cart_items := items }, some { it with quantity := quantity })
  | none => ({ s with cart_items := items }, none)

/-- CartCrud.remove_item: DELETE FROM cartitems WHERE id AND cart_id. -/
def remove_item (s : Store) (cartId itemId : Nat) : Store × Bool :=
  let hit := s.cart_items.any (fun it => decide (it.id = itemId ∧ it.cart_id = cartId))
  ({ s with cart_items :=
      s.cart_items.filter (fun it => decide (¬ (it.id = itemId ∧ it.cart_id = cartId))) },
   hit)

/-- CartService.get_or_create_cart (SQLAlchemy renders `== None` as IS NULL,
so the session lookup compares the Option values directly). -/
def get_or_create_cart (s : Store) (uid : Option Nat) (sid : Option String) (newId : Nat) :
    Store × Option Cart :=
  match uid with
  | some u =>
    match get_cart_by_user_id s u with
    | some c => (s, some c)
    | none =>
      let c : Cart := { id := newId, user_id := some u, session_id := none }
      ({ s with carts := s.carts ++ [c] }, some c)
  | none =>
    match s.carts.find? (fun c => decide (c.session_id = sid)) with
    | some c => (s, some c)
    | none =>
      let c : Cart := { id := newId, user_id := none, session_id := sid }
      ({ s with carts := s.carts ++ [c] }, some c)

/-- CartCrud.update_anon_cart_to_user_cart: UPDATE carts SET user_id, session_id=NULL
WHERE session_id = sid (every matching row). -/
def update_anon_cart_to_user_cart (s : Store) (uid : Nat) (sid : String) : Store :=
  { s with carts := s.carts.map (fun c =>
      if c.session_id = some sid then { c with user_id := some uid, session_id := none } else c) }

/-- CartCrud.remove_anon_cart: DELETE FROM carts WHERE session_id = sid; the
cartitems.cart_id foreign key is ON DELETE CASCADE, so the lines of every
deleted cart disappear with it. -/
def remove_anon_cart (s : Store) (sid : String) : Store :=
  let deadIds := (s.carts.filter (fun c => decide (c.session_id = some sid))).map (fun c => c.id)
  { s with
      carts := s.carts.filter (fun c => decide (¬ c.session_id = some sid)),
      cart_items := s.cart_items.filter (fun it => decide (¬ it.cart_id ∈ deadIds)) }

/-- One iteration of the loop in CartService.merge_carts over the anonymous
cart's lines: if the user cart already holds the product, the existing line's
quantity is incremented (mutation of the row returned by
get_cart_item_by_product); otherwise the anonymous line itself is re-keyed to
the user cart (mutation of the row `item`, identified by its primary key). -/
def mergeStep (userCartId : Nat) (items : List CartItem) (a : CartItem) : List CartItem :=
  match items.find? (fun it => decide (it.cart_id = userCartId ∧ it.product_id = a.product_id)) with
  | some _ =>
    updateFirst (fun it => decide (it.cart_id = userCartId ∧ it.product_id = a.product_id))
      (fun it => { it with quantity := it.quantity + a.quantity }) items
  | none =>
    updateFirst (fun it => decide (it.id = a.id))
      (fun it => { it with cart_id := userCartId }) items

/-- CartService.merge_carts. -/
def merge_carts (s : Store) (uid : Nat) (sid : String) : Store :=
  match get_cart_by_session_id s sid with
  | none => s
  | some anon =>
    match get_cart_by_user_id s uid with
    | none => update_anon_cart_to_user_cart s uid sid
    | some ucart =>
      let anonItems := s.cart_items.filter (fun it => decide (it.cart_id = anon.id))
      let items := anonItems.foldl (mergeStep ucart.id) s.cart_items
      remove_anon_cart { s with cart_items := items } sid

/-! ### Checkout (OrderCrud.create_order / OrderService.place_order) -/

/-- OrderException cases raised along the checkout path ("Invalid address",
"Your cart is empty.", "Not enough stock for {name}. Available: {n}"); a
dangling product foreign key would crash attribute access, modelled as
`missingProduct`. -/
inductive OrderError where
  | invalidAddress
  | emptyCart
  | insufficientStock (name : String) (available : Int)
  | missingProduct
deriving DecidableEq

/-- OrderCrud.validate_address, as the boolean it decides: the address exists
and belongs to the user. -/
def validate_address (s : Store) (uid aid : Nat) : Bool :=
  match get_single_address s aid with
  | none => false
  | some a => decide (a.user_id = uid)

/-- OrderCrud.get_cart_items: lines whose cart belongs to the user
(EXISTS join on carts). -/
def get_cart_items (s : Store) (uid : Nat) : List CartItem :=
  s.cart_items.filter (fun it =>
    s.carts.any (fun c => decide (c.id = it.cart_id ∧ c.user_id = some uid)))

/-- OrderCrud.validate_stock: raise on the first line whose product has
fewer units than the line's quantity, naming the product and its stock. -/
def validate_stock (s : Store) : List CartItem → Except OrderError Unit
  | [] => .ok ()
  | it :: rest =>
    match get_product_by_id s it.product_id with
    | none => .error .missingProduct
    | some p =>
      if p.stock_quantity < (it.quantity : Int) then
        .error (.insufficientStock p.name p.stock_quantity)
      else validate_stock s rest

/-- Price of a product as read through `item.product.price`. On the checkout
path validate_stock has already established the lookup succeeds, so the
default is never taken there. -/
def priceOf (s : Store) (pid : Nat) : ℚ :=
  match get_product_by_id s pid with
  | some p => p.price
  | none => 0

/-- The per-product stock decrement loop of create_order:
`item.product.stock_quantity -= item.quantity`, one line at a time. -/
def deductStock (ps : List Product) (items : List CartItem) : List Product :=
  items.foldl (fun acc it =>
    acc.map (fun p =>
      if p.id = it.product_id then
        { p with stock_quantity := p.stock_quantity - (it.quantity : Int) }
      else p)) ps

/-- OrderCrud.create_order.  `order_number`, `tx_ref` are the generated
identifiers; `oid` is the id the database assigns at flush time.  The raise
points all precede the first mutation, so every error leaves the store as it
was. -/
def create_order (s : Store) (uid ship bill : Nat) (order_number tx_ref : String)
    (oid : Nat) : Store × Except OrderError Order :=
  if validate_address s uid ship = true then
    if validate_address s uid bill = true then
      if get_cart_items s uid = [] then (s, .error .emptyCart)
      else
        match validate_stock s (get_cart_items s uid) with
        | .error e => (s, .error e)
        | .ok _ =>
          let items := get_cart_items s uid
          let total := (items.map (fun it => priceOf s it.product_id * (it.quantity : ℚ))).sum
          let order : Order :=
            { id := oid, user_id := uid, shipping_address_id := ship,
              billing_address_id := bill, order_number := order_number,
              total_amount := total, status := .pending, tx_ref := tx_ref,
              payment_status := .pending }
          let newItems := items.map (fun it =>
            ({ order_id := oid, product_id := it.product_id,
               unit_price := priceOf s it.product_id, quantity := it.quantity } : OrderItem))
          let products := deductStock s.products items
          let remaining := s.cart_items.filter
            (fun it2 => decide (¬ it2.id ∈ items.map (fun it => it.id)))
          ({ s with products := products, cart_items := remaining,
                    orders := s.orders ++ [order],
                    order_items := s.order_items ++ newItems },
           .ok order)
    else (s, .error .invalidAddress)
  else (s, .error .invalidAddress)

/-- ProductCrud.update_product with an update payload containing only `price`
(UPDATE products SET price WHERE id). -/
def update_product_price (s : Store) (pid : Nat) (newPrice : ℚ) : Store :=
  { s with products := s.products.map (fun p =>
      if p.id = pid then { p with price := newPrice } else p) }

/-! ### Payments (PaymentService / PaymentCrud) -/

/-- PaymentCrud.create_payment. -/
def create_payment (s : Store) (order_id : Nat) (amount : ℚ) (txn : String) (newId : Nat) :
    Store × Payment :=
  let p : Payment := { id := newId, order_id := order_id, amount := amount,
                       status := .pending, transaction_id := txn, paid_at := none }
  ({ s with payments := s.payments ++ [p] }, p)

/-- PaymentCrud.update_payment_status; `now` models datetime.utcnow(). -/
def update_payment_status (p : Payment) (st : PaymentStatus) (now : Nat) : Payment :=
  { p with status := st, paid_at := if st = .completed then some now else p.paid_at }

/-- PaymentService._handle_successful_payment: look the Payment up by
transaction_id; if absent do nothing; otherwise mark it completed and set the
associated order to payment_status=success, status=paid. -/
def handle_successful_payment (s : Store) (txn : String) (now : Nat) : Store :=
  match get_payment_by_transaction_id s txn with
  | none => s
  | some payment =>
    let payments := updateFirst (fun p => decide (p.transaction_id = txn))
      (fun p => update_payment_status p .completed now) s.payments
    let orders := updateFirst (fun o => decide (o.id = payment.order_id))
      (fun o => { o with payment_status := .success, status := .paid }) s.orders
    { s with payments := payments, orders := orders }

/-- PaymentService._handle_failed_payment: unconditional — no guard against a
payment that is already completed; Order.status is left alone. -/
def handle_failed_payment (s : Store) (txn : String) (now : Nat) : Store :=
  match get_payment_by_transaction_id s txn with
  | none => s
  | some payment =>
    let payments := updateFirst (fun p => decide (p.transaction_id = txn))
      (fun p => update_payment_status p .failed now) s.payments
    let orders := updateFirst (fun o => decide (o.id = payment.order_id))
      (fun o => { o with payment_status := .failed }) s.orders
    { s with payments := payments, orders := orders }

/-- Verified webhook event kinds dispatched by PaymentService.handle_webhook;
`other` covers every event type the handler ignores. -/
inductive EventKind where
  | succeeded | failed | other
deriving DecidableEq

/-- PaymentService.handle_webhook after signature verification: dispatch on
the event type and always acknowledge with {"status": "success"}. -/
def handle_webhook (s : Store) (kind : EventKind) (txn : String) (now : Nat) :
    Store × String :=
  match kind with
  | .succeeded => (handle_successful_payment s txn now, "success")
  | .failed => (handle_failed_payment s txn now, "success")
  | .other => (s, "success")

/-! ### Derived observations used by the theorems -/

/-- Total quantity of product `pid` held in cart `cid` (0 when no line). -/
def qsum (cid pid : Nat) (l : List CartItem) : Nat :=
  ((l.filter (fun it => decide (it.cart_id = cid ∧ it.product_id = pid))).map
    (fun it => it.quantity)).sum

/-- Total quantity of product `pid` over a list of checkout lines. -/
def qtyTotal (items : List CartItem) (pid : Nat) : Nat :=
  ((items.filter (fun it => decide (it.product_id = pid))).map (fun it => it.quantity)).sum

/-- Every product row has nonnegative stock. -/
def stockNonneg (s : Store) : Prop :=
  ∀ p ∈ s.products, 0 ≤ p.stock_quantity

/-! ### Concrete stores used to instantiate the theorems -/

/-- User 1 owns addresses 10 and 11 and a cart holding 2 units of product 1,
but only 1 unit is in stock. -/
def storeShort : Store :=
  { products := [{ id := 1, name := "Gadget", price := 2, stock_quantity := 1, is_active := true }],
    addresses := [{ id := 10, user_id := 1 }, { id := 11, user_id := 1 }],
    carts := [{ id := 1, user_id := some 1, session_id := none }],
    cart_items := [{ id := 5, cart_id := 1, product_id := 1, quantity := 2 }],
    orders := [], order_items := [], payments := [] }

/-- The checkout scenario of the spec: product A (price 10.00, stock 10),
product B (price 5.50, stock 4); user 1's cart holds 2 of A and 1 of B. -/
def storeAB : Store :=
  { products :=
      [{ id := 1, name := "A", price := 10, stock_quantity := 10, is_active := true },
       { id := 2, name := "B", price := 11/2, stock_quantity := 4, is_active := true }],
    addresses := [{ id := 10, user_id := 1 }, { id := 11, user_id := 1 }],
    carts := [{ id := 1, user_id := some 1, session_id := none }],
    cart_items :=
      [{ id := 5, cart_id := 1, product_id := 1, quantity := 2 },
       { id := 6, cart_id := 1, product_id := 2, quantity := 1 }],
    orders := [], order_items := [], payments := [] }

/-- The merge scenario of the spec: user 7's cart holds 2 of product 42, the
anonymous cart of session "sess" holds 1 of product 42. -/
def storeMerge : Store :=
  { products := [{ id := 42, name := "A", price := 1, stock_quantity := 9, is_active := true }],
    addresses := [],
    carts := [{ id := 1, user_id := some 7, session_id := none },
              { id := 2, user_id := none, session_id := some "sess" }],
    cart_items := [{ id := 5, cart_id := 1, product_id := 42, quantity := 2 },
                   { id := 6, cart_id := 2, product_id := 42, quantity := 1 }],
    orders := [], order_items := [], payments := [] }

/-- An inactive product with 5 units of stock, plus user 1's cart holding one
unit of it and valid addresses. -/
def storeInactive : Store :=
  { products := [{ id := 1, name := "Old", price := 3, stock_quantity := 5, is_active := false }],
    addresses := [{ id := 10, user_id := 1 }, { id := 11, user_id := 1 }],
    carts := [{ id := 1, user_id := some 1, session_id := none }],
    cart_items := [{ id := 5, cart_id := 1, product_id := 1, quantity := 1 }],
    orders := [], order_items := [], payments := [] }

/-- A pending order with one pending Payment row for transaction "txn_1". -/
def storePay : Store :=
  { products := [], addresses := [], carts := [], cart_items := [],
    orders := [{ id := 1, user_id := 1, shipping_address_id := 10, billing_address_id := 11,
                 order_number := "ON1", total_amount := 100, status := .pending,
                 tx_ref := "TX1", payment_status := .pending }],
    order_items := [],
    payments := [{ id := 1, order_id := 1, amount := 100, status := .pending,
                   transaction_id := "txn_1", paid_at := none }] }

/-- storePay after the succeeded webhook for "txn_1": the payment is completed
and the order is paid. -/
def storePaid : Store :=
  (handle_webhook storePay .succeeded "txn_1" 0).1

/-! ### Helper lemmas about updateFirst and the lookup queries -/

theorem updateFirst_cons_pos (p : α → Bool) (f : α → α) {x : α} {xs : List α}
    (h : p x = true) : updateFirst p f (x :: xs) = f x :: xs := by
  unfold updateFirst
  rw [if_pos h]

theorem updateFirst_cons_neg (p : α → Bool) (f : α → α) {x : α} {xs : List α}
    (h : p x = false) : updateFirst p f (x :: xs) = x :: updateFirst p f xs := by
  show (if p x = true then f x :: xs else x :: updateFirst p f xs) = x :: updateFirst p f xs
  rw [if_neg (by simp [h])]

theorem updateFirst_length (p : α → Bool) (f : α → α) (l : List α) :
    (updateFirst p f l).length = l.length := by
  induction l with
  | nil => rfl
  | cons x xs ih =>
    by_cases h : p x = true <;> simp [updateFirst, h, ih]

theorem updateFirst_map_key {β : Type} (key : α → β) (p : α → Bool) (f : α → α)
    (hf : ∀ x, key (f x) = key x) (l : List α) :
    (updateFirst p f l).map key = l.map key := by
  induction l with
  | nil => rfl
  | cons x xs ih =>
    by_cases h : p x = true <;> simp [updateFirst, h, ih, hf]

theorem find?_updateFirst (p : α → Bool) (f : α → α) (hp : ∀ x, p (f x) = p x)
    (l : List α) : (updateFirst p f l).find? p = (l.find? p).map f := by
  induction l with
  | nil => rfl
  | cons x xs ih =>
    by_cases h : p x = true
    · simp [updateFirst, h, List.find?_cons_of_pos, hp x, h]
    · have h' : p x = false := by simpa using h
      simp [updateFirst, h', List.find?_cons_of_neg, ih]

theorem updateFirst_idem (p : α → Bool) (f : α → α) (hp : ∀ x, p (f x) = p x)
    (hf : ∀ x, f (f x) = f x) (l : List α) :
    updateFirst p f (updateFirst p f l) = updateFirst p f l := by
  induction l with
  | nil => rfl
  | cons x xs ih =>
    by_cases h : p x = true
    · simp [updateFirst, h, hp x, hf x]
    · have h' : p x = false := by simpa using h
      simp [updateFirst, h', ih]

theorem mem_updateFirst_of_neg (p : α → Bool) (f : α → α) {b : α} {l : List α}
    (hb : p b = false) (hmem : b ∈ l) : b ∈ updateFirst p f l := by
  induction l with
  | nil => exact absurd hmem (List.not_mem_nil b)
  | cons x xs ih =>
    by_cases h : p x = true
    · rcases List.mem_cons.1 hmem with rfl | hmem'
      · rw [h] at hb; exact absurd hb (by simp)
      · simp [updateFirst, h, List.mem_cons, hmem']
    · have h' : p x = false := by simpa using h
      rcases List.mem_cons.1 hmem with rfl | hmem'
      · simp [updateFirst, h', List.mem_cons]
      · simp [updateFirst, h', List.mem_cons, ih hmem']

/-! ### Merge: the session cart never survives a merge -/

/-- If no cart carries the session id, merge_carts does nothing (rule 1 of the
merge policy). -/
theorem merge_carts_of_no_anon (s : Store) (uid : Nat) (sid : String)
    (h : get_cart_by_session_id s sid = none) : merge_carts s uid sid = s := by
  unfold merge_carts
  rw [h]

/-- After any merge_carts call, no cart carries the session id: the anonymous
cart was absent, re-keyed with its session cleared, or deleted. -/
theorem get_session_merge_carts (s : Store) (uid : Nat) (sid : String) :
    get_cart_by_session_id (merge_carts s uid sid) sid = none := by
  unfold merge_carts
  cases h : get_cart_by_session_id s sid with
  | none => exact h
  | some anon =>
    cases hu : get_cart_by_user_id s uid with
    | none =>
      apply List.find?_eq_none.2
      intro c hc
      simp only [update_anon_cart_to_user_cart, List.mem_map] at hc
      obtain ⟨c0, _, rfl⟩ := hc
      by_cases h0 : c0.session_id = some sid <;> simp [h0]
    | some ucart =>
      apply List.find?_eq_none.2
      intro c hc
      simp only [remove_anon_cart, List.mem_filter] at hc
      simpa using hc.2

/-! ### C4: idempotence of the anonymous-into-user cart merge -/

/-- C4: for every user id and session id, applying CartService.merge_carts
twice in a row yields exactly the same store as applying it once — after the
first call no cart carries the session id any more, so the second call is a
no-op and never double-counts a line quantity. -/
theorem merge_carts_idempotent (s : Store) (uid : Nat) (sid : String) :
    merge_carts (merge_carts s uid sid) uid sid = merge_carts s uid sid :=
  merge_carts_of_no_anon _ uid sid (get_session_merge_carts s uid sid)

/-! ### C8: webhook events for unknown transaction ids -/

/-- C8: a verified webhook event whose transaction id matches no stored
Payment row is acknowledged with status "success" and changes nothing: the
handler looks the Payment up by transaction_id and returns without touching
any row when the lookup is empty. -/
theorem handle_webhook_unknown_txn (s : Store) (txn : String) (kind : EventKind)
    (now : Nat) (h : get_payment_by_transaction_id s txn = none) :
    handle_webhook s kind txn now = (s, "success") := by
  cases kind <;>
    simp [handle_webhook, handle_successful_payment, handle_failed_payment, h]

theorem handle_webhook_unknown_txn_witness :
    get_payment_by_transaction_id storePay "nope" = none ∧
    handle_webhook storePay EventKind.succeeded "nope" 3 = (storePay, "success") ∧
    handle_webhook storePay EventKind.failed "nope" 3 = (storePay, "success") :=
  ⟨by decide,
   handle_webhook_unknown_txn storePay "nope" .succeeded 3 (by decide),
   handle_webhook_unknown_txn storePay "nope" .failed 3 (by decide)⟩

/-! ### C6 and C7: reconciliation of succeeded / failed events -/

/-- Unfolding of the succeeded handler when the Payment row is found. -/
theorem handle_successful_payment_of_found (s : Store) (txn : String) (now : Nat)
    (pay : Payment) (hp : get_payment_by_transaction_id s txn = some pay) :
    handle_successful_payment s txn now =
      { s with
          payments := updateFirst (fun p => decide (p.transaction_id = txn))
            (fun p => update_payment_status p .completed now) s.payments,
          orders := updateFirst (fun o => decide (o.id = pay.order_id))
            (fun o => { o with payment_status := .success, status := .paid }) s.orders } := by
  unfold handle_successful_payment
  rw [hp]

/-- Unfolding of the failed handler when the Payment row is found. -/
theorem handle_failed_payment_of_found (s : Store) (txn : String) (now : Nat)
    (pay : Payment) (hp : get_payment_by_transaction_id s txn = some pay) :
    handle_failed_payment s txn now =
      { s with
          payments := updateFirst (fun p => decide (p.transaction_id = txn))
            (fun p => update_payment_status p .failed now) s.payments,
          orders := updateFirst (fun o => decide (o.id = pay.order_id))
            (fun o => { o with payment_status := .failed }) s.orders } := by
  unfold handle_failed_payment
  rw [hp]

/-- C6: replaying the succeeded event for a tracked transaction id leaves the
observable state of the first application unchanged: Payment.status stays
completed, the order stays payment_status=success and status=paid, no Payment
row is added, and a replay carrying the same timestamp is literally a no-op. -/
theorem webhook_succeeded_replay_idempotent
    (s : Store) (txn : String) (now now2 : Nat) (pay : Payment) (ord : Order)
    (hp : get_payment_by_transaction_id s txn = some pay)
    (ho : s.orders.find? (fun o => decide (o.id = pay.order_id)) = some ord) :
    (get_payment_by_transaction_id (handle_webhook s .succeeded txn now).1 txn).map
        (fun p => p.status) = some .completed ∧
    (get_payment_by_transaction_id
        (handle_webhook (handle_webhook s .succeeded txn now).1 .succeeded txn now2).1 txn).map
        (fun p => p.status) = some .completed ∧
    ((handle_webhook s .succeeded txn now).1.orders.find?
        (fun o => decide (o.id = pay.order_id))).map
        (fun o => (o.payment_status, o.status)) = some (.success, .paid) ∧
    ((handle_webhook (handle_webhook s .succeeded txn now).1 .succeeded txn now2).1.orders.find?
        (fun o => decide (o.id = pay.order_id))).map
        (fun o => (o.payment_status, o.status)) = some (.success, .paid) ∧
    (handle_webhook (handle_webhook s .succeeded txn now).1 .succeeded txn now2).1.payments.length
        = s.payments.length ∧
    handle_webhook (handle_webhook s .succeeded txn now).1 .succeeded txn now
        = handle_webhook s .succeeded txn now := by
  have hkeep : ∀ p : Payment, (decide ((update_payment_status p .completed now).transaction_id = txn))
      = decide (p.transaction_id = txn) := fun p => rfl
  have hkeep2 : ∀ p : Payment, (decide ((update_payment_status p .completed now2).transaction_id = txn))
      = decide (p.transaction_id = txn) := fun p => rfl
  have hokeep : ∀ o : Order,
      (decide ((({ o with payment_status := .success, status := .paid } : Order)).id = pay.order_id))
      = decide (o.id = pay.order_id) := fun o => rfl
  have hp' : s.payments.find? (fun p => decide (p.transaction_id = txn)) = some pay := hp
  have e1 := handle_successful_payment_of_found s txn now pay hp
  have f1 : get_payment_by_transaction_id (handle_successful_payment s txn now) txn
      = some (update_payment_status pay .completed now) := by
    show (handle_successful_payment s txn now).payments.find? _ = _
    rw [e1]
    show (updateFirst _ _ s.payments).find? _ = _
    rw [find?_updateFirst _ _ hkeep, hp']
    rfl
  have f2 : (handle_successful_payment s txn now).orders.find?
      (fun o => decide (o.id = pay.order_id))
      = some ({ ord with payment_status := .success, status := .paid }) := by
    rw [e1]
    show (updateFirst _ _ s.orders).find? _ = _
    rw [find?_updateFirst _ _ hokeep, ho]
    rfl
  have e2 : handle_successful_payment (handle_successful_payment s txn now) txn now2 =
      { handle_successful_payment s txn now with
          payments := updateFirst (fun p => decide (p.transaction_id = txn))
            (fun p => update_payment_status p .completed now2)
            (handle_successful_payment s txn now).payments,
          orders := updateFirst (fun o => decide (o.id = pay.order_id))
            (fun o => { o with payment_status := .success, status := .paid })
            (handle_successful_payment s txn now).orders } :=
    handle_successful_payment_of_found (handle_successful_payment s txn now) txn now2
      (update_payment_status pay .completed now) f1
  have f1' : (handle_successful_payment s txn now).payments.find?
      (fun p => decide (p.transaction_id = txn))
      = some (update_payment_status pay .completed now) := f1
  have f3 : get_payment_by_transaction_id
      (handle_successful_payment (handle_successful_payment s txn now) txn now2) txn
      = some (update_payment_status (update_payment_status pay .completed now) .completed now2) := by
    show (handle_successful_payment (handle_successful_payment s txn now) txn now2).payments.find? _ = _
    rw [e2]
    show (updateFirst _ _ _).find? _ = _
    rw [find?_updateFirst _ _ hkeep2, f1']
    rfl
  have f4 : (handle_successful_payment (handle_successful_payment s txn now) txn now2).orders.find?
      (fun o => decide (o.id = pay.order_id))
      = some ({ ord with payment_status := .success, status := .paid }) := by
    rw [e2]
    show (updateFirst _ _ _).find? _ = _
    rw [find?_updateFirst _ _ hokeep, f2]
    rfl
  have flen : (handle_successful_payment (handle_successful_payment s txn now) txn now2).payments.length
      = s.payments.length := by
    rw [e2]
    show (updateFirst _ _ (handle_successful_payment s txn now).payments).length = _
    rw [updateFirst_length, e1]
    exact updateFirst_length _ _ _
  have fidem : handle_successful_payment (handle_successful_payment s txn now) txn now
      = handle_successful_payment s txn now := by
    have e2' : handle_successful_payment (handle_successful_payment s txn now) txn now =
        { handle_successful_payment s txn now with
            payments := updateFirst (fun p => decide (p.transaction_id = txn))
              (fun p => update_payment_status p .completed now)
              (handle_successful_payment s txn now).payments,
            orders := updateFirst (fun o => decide (o.id = pay.order_id))
              (fun o => { o with payment_status := .success, status := .paid })
              (handle_successful_payment s txn now).orders } :=
      handle_successful_payment_of_found (handle_successful_payment s txn now) txn now
        (update_payment_status pay .completed now) f1
    rw [e2', e1]
    rw [updateFirst_idem (fun p : Payment => decide (p.transaction_id = txn))
          (fun p => update_payment_status p .completed now) hkeep (fun p => rfl)]
    rw [updateFirst_idem (fun o : Order => decide (o.id = pay.order_id))
          (fun o : Order => { o with payment_status := PayState.success, status := OrderStatus.paid })
          hokeep (fun o => rfl)]
  exact ⟨by show (get_payment_by_transaction_id (handle_successful_payment s txn now) txn).map _ = _
            rw [f1]; rfl,
         by show (get_payment_by_transaction_id
                (handle_successful_payment (handle_successful_payment s txn now) txn now2) txn).map _ = _
            rw [f3]; rfl,
         by show ((handle_successful_payment s txn now).orders.find? _).map _ = _
            rw [f2]; rfl,
         by show ((handle_successful_payment (handle_successful_payment s txn now) txn now2).orders.find? _).map _ = _
            rw [f4]; rfl,
         by show (handle_successful_payment (handle_successful_payment s txn now) txn now2).payments.length = _
            exact flen,
         by show (handle_successful_payment (handle_successful_payment s txn now) txn now, "success")
              = (handle_successful_payment s txn now, "success")
            rw [fidem]⟩

theorem webhook_succeeded_replay_idempotent_witness :
    (get_payment_by_transaction_id
        (handle_webhook (handle_webhook storePay .succeeded "txn_1" 0).1 .succeeded "txn_1" 5).1
        "txn_1").map (fun p => p.status) = some PaymentStatus.completed ∧
    ((handle_webhook (handle_webhook storePay .succeeded "txn_1" 0).1 .succeeded "txn_1" 5).1.orders.find?
        (fun o => decide (o.id = 1))).map (fun o => (o.payment_status, o.status))
        = some (PayState.success, OrderStatus.paid) ∧
    (handle_webhook (handle_webhook storePay .succeeded "txn_1" 0).1 .succeeded "txn_1" 5).1.payments.length
        = storePay.payments.length := by
  have h := webhook_succeeded_replay_idempotent storePay "txn_1" 0 5
    ⟨1, 1, 100, .pending, "txn_1", none⟩
    ⟨1, 1, 10, 11, "ON1", 100, .pending, "TX1", .pending⟩
    (by decide) (by decide)
  exact ⟨h.2.1, h.2.2.2.1, h.2.2.2.2.1⟩

/-- C7 counterexample: in storePaid the payment for "txn_1" is completed and
its order paid, yet delivering the failed event afterwards leaves the payment
failed, not completed — the reconciler does regress a terminal completed
payment. -/
theorem failed_after_succeeded_regresses :
    (get_payment_by_transaction_id storePaid "txn_1").map (fun p => p.status)
        = some PaymentStatus.completed ∧
    (get_payment_by_transaction_id (handle_webhook storePaid .failed "txn_1" 1).1 "txn_1").map
        (fun p => p.status) = some PaymentStatus.failed ∧
    ((handle_webhook storePaid .failed "txn_1" 1).1.orders.find? (fun o => decide (o.id = 1))).map
        (fun o => o.payment_status) = some PayState.failed := by
  decide

/-- C7 amended: PaymentService._handle_failed_payment has no terminal-state
guard — for any tracked transaction id (in particular one whose payment is
already completed) a failed event overwrites Payment.status to failed and the
order's payment_status to failed, while Order.status itself is left as it was
(it stays paid). -/
theorem handle_failed_overwrites_completed
    (s : Store) (txn : String) (now : Nat) (pay : Payment) (ord : Order)
    (hp : get_payment_by_transaction_id s txn = some pay)
    (ho : s.orders.find? (fun o => decide (o.id = pay.order_id)) = some ord) :
    (get_payment_by_transaction_id (handle_failed_payment s txn now) txn).map
        (fun p => p.status) = some .failed ∧
    ((handle_failed_payment s txn now).orders.find? (fun o => decide (o.id = pay.order_id))).map
        (fun o => (o.payment_status, o.status)) = some (.failed, ord.status) := by
  have hkeep : ∀ p : Payment, (decide ((update_payment_status p .failed now).transaction_id = txn))
      = decide (p.transaction_id = txn) := fun p => rfl
  have hokeep : ∀ o : Order,
      (decide ((({ o with payment_status := PayState.failed } : Order)).id = pay.order_id))
      = decide (o.id = pay.order_id) := fun o => rfl
  have hp' : s.payments.find? (fun p => decide (p.transaction_id = txn)) = some pay := hp
  have e1 := handle_failed_payment_of_found s txn now pay hp
  constructor
  · show ((handle_failed_payment s txn now).payments.find?
        (fun p => decide (p.transaction_id = txn))).map _ = _
    rw [e1]
    show ((updateFirst _ _ s.payments).find? _).map _ = _
    rw [find?_updateFirst _ _ hkeep, hp']
    rfl
  · rw [e1]
    show ((updateFirst _ _ s.orders).find? _).map _ = _
    rw [find?_updateFirst _ _ hokeep, ho]
    rfl

theorem handle_failed_overwrites_completed_witness :
    (get_payment_by_transaction_id (handle_failed_payment storePaid "txn_1" 1) "txn_1").map
        (fun p => p.status) = some PaymentStatus.failed ∧
    ((handle_failed_payment storePaid "txn_1" 1).orders.find? (fun o => decide (o.id = 1))).map
        (fun o => (o.payment_status, o.status)) = some (PayState.failed, OrderStatus.paid) := by
  have h := handle_failed_overwrites_completed storePaid "txn_1" 1
    ⟨1, 1, 100, .completed, "txn_1", some 0⟩
    ⟨1, 1, 10, 11, "ON1", 100, .paid, "TX1", .success⟩
    (by decide) (by decide)
  exact ⟨h.1, h.2⟩

/-! ### C1: insufficient stock aborts checkout before any mutation -/

/-- If every line's product is present and some line exceeds its product's
stock, validate_stock reports insufficientStock naming an offending product
and its available quantity. -/
theorem validate_stock_error_of_short (s : Store) (items : List CartItem)
    (hall : ∀ it ∈ items, (get_product_by_id s it.product_id).isSome)
    (hshort : ∃ it ∈ items, ∃ p, get_product_by_id s it.product_id = some p ∧
        p.stock_quantity < (it.quantity : Int)) :
    ∃ it ∈ items, ∃ p, get_product_by_id s it.product_id = some p ∧
      p.stock_quantity < (it.quantity : Int) ∧
      validate_stock s items = .error (.insufficientStock p.name p.stock_quantity) := by
  induction items with
  | nil =>
    obtain ⟨it, hm, _⟩ := hshort
    exact absurd hm (List.not_mem_nil it)
  | cons a rest ih =>
    obtain ⟨p0, hp0⟩ := Option.isSome_iff_exists.1 (hall a (List.mem_cons_self a rest))
    by_cases hlt : p0.stock_quantity < (a.quantity : Int)
    · refine ⟨a, List.mem_cons_self a rest, p0, hp0, hlt, ?_⟩
      unfold validate_stock
      rw [hp0]
      exact if_pos hlt
    · obtain ⟨it, hm, p, hp, hlt'⟩ := hshort
      rcases List.mem_cons.1 hm with rfl | hm'
      · rw [hp0] at hp
        cases hp
        exact absurd hlt' hlt
      · obtain ⟨it', hm'', p', hp', hlt'', herr⟩ :=
          ih (fun b hb => hall b (List.mem_cons_of_mem a hb)) ⟨it, hm', p, hp, hlt'⟩
        refine ⟨it', List.mem_cons_of_mem a hm'', p', hp', hlt'', ?_⟩
        unfold validate_stock
        rw [hp0]
        exact (if_neg hlt).trans herr

/-- Unfolding of create_order when addresses pass, the cart is non-empty and
validate_stock raises: the call returns the error with the store untouched. -/
theorem create_order_stock_error (s : Store) (uid ship bill : Nat)
    (onum txr : String) (oid : Nat)
    (hship : validate_address s uid ship = true)
    (hbill : validate_address s uid bill = true)
    (hne : ¬ get_cart_items s uid = []) {e : OrderError}
    (hv : validate_stock s (get_cart_items s uid) = .error e) :
    create_order s uid ship bill onum txr oid = (s, .error e) := by
  unfold create_order
  rw [if_pos hship, if_pos hbill]
  simp only [if_neg hne, hv]

/-- C1: a checkout attempt with valid addresses in which some cart line's
quantity exceeds its product's stock fails with insufficientStock naming an
offending product and its available quantity, and returns the store exactly
as it was: no Order, OrderItem, stock decrement or cart-line deletion. -/
theorem create_order_insufficient_stock_all_or_nothing
    (s : Store) (uid ship bill : Nat) (onum txr : String) (oid : Nat)
    (hship : validate_address s uid ship = true)
    (hbill : validate_address s uid bill = true)
    (hall : ∀ it ∈ get_cart_items s uid, (get_product_by_id s it.product_id).isSome)
    (hshort : ∃ it ∈ get_cart_items s uid, ∃ p, get_product_by_id s it.product_id = some p ∧
        p.stock_quantity < (it.quantity : Int)) :
    (create_order s uid ship bill onum txr oid).1 = s ∧
    ∃ it ∈ get_cart_items s uid, ∃ p, get_product_by_id s it.product_id = some p ∧
      p.stock_quantity < (it.quantity : Int) ∧
      (create_order s uid ship bill onum txr oid).2 =
        .error (.insufficientStock p.name p.stock_quantity) := by
  have hne : ¬ get_cart_items s uid = [] := by
    intro h
    obtain ⟨it, hm, _⟩ := hshort
    rw [h] at hm
    exact List.not_mem_nil it hm
  obtain ⟨it, hm, p, hp, hlt, herr⟩ := validate_stock_error_of_short s _ hall hshort
  have hco := create_order_stock_error s uid ship bill onum txr oid hship hbill hne herr
  exact ⟨by rw [hco], it, hm, p, hp, hlt, by rw [hco]⟩

theorem create_order_insufficient_stock_all_or_nothing_witness :
    (create_order storeShort 1 10 11 "ON1" "TX1" 100).1 = storeShort ∧
    (create_order storeShort 1 10 11 "ON1" "TX1" 100).2 =
      Except.error (OrderError.insufficientStock "Gadget" 1) := by
  have h := create_order_insufficient_stock_all_or_nothing storeShort 1 10 11 "ON1" "TX1" 100
    (by decide) (by decide) (by decide)
    ⟨⟨5, 1, 1, 2⟩, by decide, ⟨1, "Gadget", 2, 1, true⟩, by decide, by decide⟩
  exact ⟨h.1, by rfl⟩

/-! ### C2: snapshot prices, totals and stock decrements of a successful checkout -/

theorem find?_map_pres {α : Type} (f : α → α) (p : α → Bool) (hp : ∀ x, p (f x) = p x)
    (l : List α) : (l.map f).find? p = (l.find? p).map f := by
  induction l with
  | nil => rfl
  | cons x xs ih =>
    by_cases h : p x = true
    · rw [List.map_cons, List.find?_cons_of_pos _ (by rw [hp x]; exact h),
          List.find?_cons_of_pos _ h]
      rfl
    · have h' : p x = false := by simpa using h
      rw [List.map_cons, List.find?_cons_of_neg _ (by rw [hp x]; simp [h']),
          List.find?_cons_of_neg _ (by simp [h']), ih]

theorem qtyTotal_cons (a : CartItem) (items : List CartItem) (pid : Nat) :
    qtyTotal (a :: items) pid
      = (if a.product_id = pid then a.quantity else 0) + qtyTotal items pid := by
  by_cases h : a.product_id = pid <;> simp [qtyTotal, List.filter_cons, h]

/-- The stock-decrement loop acts pointwise: each product ends with its stock
reduced by the total quantity of the checkout lines naming it. -/
theorem deductStock_eq_map (items : List CartItem) :
    ∀ ps : List Product, deductStock ps items
      = ps.map (fun p =>
          { p with stock_quantity := p.stock_quantity - (qtyTotal items p.id : Int) }) := by
  induction items with
  | nil =>
    intro ps
    have h0 : ∀ p : Product,
        ({ p with stock_quantity := p.stock_quantity - (qtyTotal [] p.id : Int) }) = p := by
      intro p
      cases p
      show Product.mk _ _ _ (_ - ((0 : ℕ) : ℤ)) _ = _
      simp
    rw [show (fun p : Product =>
        { p with stock_quantity := p.stock_quantity - (qtyTotal [] p.id : Int) }) = id
      from funext h0, List.map_id]
    rfl
  | cons a rest ih =>
    intro ps
    have step : deductStock ps (a :: rest) =
        deductStock (ps.map (fun p => if p.id = a.product_id then
          { p with stock_quantity := p.stock_quantity - (a.quantity : Int) } else p)) rest := rfl
    rw [step, ih, List.map_map]
    apply List.map_congr_left
    intro p _
    by_cases hap : p.id = a.product_id
    · show (fun q : Product =>
          { q with stock_quantity := q.stock_quantity - (qtyTotal rest q.id : Int) })
          (if p.id = a.product_id then
            { p with stock_quantity := p.stock_quantity - (a.quantity : Int) } else p)
        = { p with stock_quantity := p.stock_quantity - (qtyTotal (a :: rest) p.id : Int) }
      rw [if_pos hap]
      show ({ p with stock_quantity := p.stock_quantity - (a.quantity : Int)
          - (qtyTotal rest p.id : Int) })
        = { p with stock_quantity := p.stock_quantity - (qtyTotal (a :: rest) p.id : Int) }
      have harg : p.stock_quantity - (a.quantity : Int) - (qtyTotal rest p.id : Int)
          = p.stock_quantity - (qtyTotal (a :: rest) p.id : Int) := by
        rw [qtyTotal_cons, if_pos hap.symm]
        push_cast
        ring
      rw [harg]
    · show (fun q : Product =>
          { q with stock_quantity := q.stock_quantity - (qtyTotal rest q.id : Int) })
          (if p.id = a.product_id then
            { p with stock_quantity := p.stock_quantity - (a.quantity : Int) } else p)
        = { p with stock_quantity := p.stock_quantity - (qtyTotal (a :: rest) p.id : Int) }
      rw [if_neg hap]
      show ({ p with stock_quantity := p.stock_quantity - (qtyTotal rest p.id : Int) })
        = { p with stock_quantity := p.stock_quantity - (qtyTotal (a :: rest) p.id : Int) }
      have harg : qtyTotal rest p.id = qtyTotal (a :: rest) p.id := by
        rw [qtyTotal_cons, if_neg (fun h => hap h.symm)]
        simp
      rw [harg]

/-- Per-product form of the stock decrement, read through the id lookup. -/
theorem deductStock_find (items : List CartItem) (ps : List Product) (pid : Nat) :
    (deductStock ps items).find? (fun p => decide (p.id = pid)) =
      (ps.find? (fun p => decide (p.id = pid))).map
        (fun p => { p with stock_quantity := p.stock_quantity - (qtyTotal items pid : Int) }) := by
  rw [deductStock_eq_map]
  rw [find?_map_pres (fun p : Product =>
        { p with stock_quantity := p.stock_quantity - (qtyTotal items p.id : Int) })
      (fun p => decide (p.id = pid)) (fun x => rfl)]
  cases h : ps.find? (fun p => decide (p.id = pid)) with
  | none => rfl
  | some p =>
    have hid : p.id = pid := by
      have := List.find?_some h
      simpa using this
    simp only [Option.map_some']
    rw [hid]

theorem validate_stock_ok_spec (s : Store) (items : List CartItem)
    (h : validate_stock s items = .ok ()) :
    ∀ it ∈ items, ∃ p, get_product_by_id s it.product_id = some p ∧
      (it.quantity : Int) ≤ p.stock_quantity := by
  induction items with
  | nil => intro it hit; exact absurd hit (List.not_mem_nil it)
  | cons a rest ih =>
    unfold validate_stock at h
    cases hp : get_product_by_id s a.product_id with
    | none =>
      rw [hp] at h
      exact absurd h (by simp)
    | some p =>
      rw [hp] at h
      have h' : (if p.stock_quantity < (a.quantity : Int) then
          Except.error (OrderError.insufficientStock p.name p.stock_quantity)
        else validate_stock s rest) = .ok () := h
      by_cases hlt : p.stock_quantity < (a.quantity : Int)
      · rw [if_pos hlt] at h'
        exact absurd h' (by simp)
      · rw [if_neg hlt] at h'
        intro it hit
        rcases List.mem_cons.1 hit with rfl | hm
        · exact ⟨p, hp, le_of_not_lt hlt⟩
        · exact ih h' it hm

theorem validate_stock_ok_of_sufficient (s : Store) (items : List CartItem)
    (h : ∀ it ∈ items, ∃ p, get_product_by_id s it.product_id = some p ∧
        (it.quantity : Int) ≤ p.stock_quantity) :
    validate_stock s items = .ok () := by
  induction items with
  | nil => rfl
  | cons a rest ih =>
    obtain ⟨p, hp, hle⟩ := h a (List.mem_cons_self a rest)
    unfold validate_stock
    rw [hp]
    exact (if_neg (not_lt.2 hle)).trans
      (ih fun it hit => h it (List.mem_cons_of_mem a hit))

/-- Unfolding of create_order on the success path. -/
theorem create_order_ok (s : Store) (uid ship bill : Nat) (onum txr : String) (oid : Nat)
    (hship : validate_address s uid ship = true)
    (hbill : validate_address s uid bill = true)
    (hne : ¬ get_cart_items s uid = [])
    (hv : validate_stock s (get_cart_items s uid) = .ok ()) :
    create_order s uid ship bill onum txr oid =
      ({ s with
          products := deductStock s.products (get_cart_items s uid),
          cart_items := s.cart_items.filter (fun it2 =>
            decide (¬ it2.id ∈ (get_cart_items s uid).map (fun it => it.id))),
          orders := s.orders ++
            [{ id := oid, user_id := uid, shipping_address_id := ship,
               billing_address_id := bill, order_number := onum,
               total_amount := ((get_cart_items s uid).map
                 (fun it => priceOf s it.product_id * (it.quantity : ℚ))).sum,
               status := .pending, tx_ref := txr, payment_status := .pending }],
          order_items := s.order_items ++ (get_cart_items s uid).map (fun it =>
            ({ order_id := oid, product_id := it.product_id,
               unit_price := priceOf s it.product_id, quantity := it.quantity } : OrderItem)) },
       .ok { id := oid, user_id := uid, shipping_address_id := ship,
             billing_address_id := bill, order_number := onum,
             total_amount := ((get_cart_items s uid).map
               (fun it => priceOf s it.product_id * (it.quantity : ℚ))).sum,
             status := .pending, tx_ref := txr, payment_status := .pending }) := by
  unfold create_order
  rw [if_pos hship, if_pos hbill]
  simp only [if_neg hne, hv]

/-- C2: a successful checkout snapshots prices — the created Order's
total_amount is the sum of price-at-checkout times quantity over the consumed
lines, equivalently the sum of unit_price times quantity over the OrderItems
it creates (exactly one per line); each product's stock drops by exactly the
total quantity the lines ask of it; and a later product price change leaves
the stored orders and order items untouched. -/
theorem create_order_price_snapshot
    (s : Store) (uid ship bill : Nat) (onum txr : String) (oid : Nat)
    (hship : validate_address s uid ship = true)
    (hbill : validate_address s uid bill = true)
    (hne : ¬ get_cart_items s uid = [])
    (hv : validate_stock s (get_cart_items s uid) = .ok ()) :
    ∃ o, (create_order s uid ship bill onum txr oid).2 = .ok o ∧
      (create_order s uid ship bill onum txr oid).1.order_items
        = s.order_items ++ (get_cart_items s uid).map (fun it =>
            ({ order_id := oid, product_id := it.product_id,
               unit_price := priceOf s it.product_id, quantity := it.quantity } : OrderItem)) ∧
      o.total_amount = ((get_cart_items s uid).map
          (fun it => priceOf s it.product_id * (it.quantity : ℚ))).sum ∧
      o.total_amount = (((get_cart_items s uid).map (fun it =>
            ({ order_id := oid, product_id := it.product_id,
               unit_price := priceOf s it.product_id, quantity := it.quantity } : OrderItem))).map
          (fun oi => oi.unit_price * (oi.quantity : ℚ))).sum ∧
      (∀ pid, get_product_by_id (create_order s uid ship bill onum txr oid).1 pid
          = (get_product_by_id s pid).map (fun p =>
              { p with stock_quantity := p.stock_quantity
                  - (qtyTotal (get_cart_items s uid) pid : Int) })) ∧
      (∀ pid q, (update_product_price (create_order s uid ship bill onum txr oid).1 pid q).orders
            = (create_order s uid ship bill onum txr oid).1.orders ∧
          (update_product_price (create_order s uid ship bill onum txr oid).1 pid q).order_items
            = (create_order s uid ship bill onum txr oid).1.order_items) := by
  have hco := create_order_ok s uid ship bill onum txr oid hship hbill hne hv
  refine ⟨_, by rw [hco], by rw [hco], rfl, ?_, ?_, ?_⟩
  · rw [List.map_map]
    rfl
  · intro pid
    rw [hco]
    show (deductStock s.products (get_cart_items s uid)).find? _ = _
    exact deductStock_find _ _ _
  · intro pid q
    exact ⟨rfl, rfl⟩

theorem create_order_price_snapshot_witness :
    ∃ o, (create_order storeAB 1 10 11 "ON" "TX" 100).2 = .ok o ∧
      o.total_amount = (51 : ℚ) / 2 ∧
      (create_order storeAB 1 10 11 "ON" "TX" 100).1.order_items =
        [{ order_id := 100, product_id := 1, unit_price := 10, quantity := 2 },
         { order_id := 100, product_id := 2, unit_price := 11/2, quantity := 1 }] ∧
      (get_product_by_id (create_order storeAB 1 10 11 "ON" "TX" 100).1 1).map
          (fun p => p.stock_quantity) = some 8 ∧
      (get_product_by_id (create_order storeAB 1 10 11 "ON" "TX" 100).1 2).map
          (fun p => p.stock_quantity) = some 3 := by
  obtain ⟨o, h1, h2, h3, _, h5, _⟩ := create_order_price_snapshot storeAB 1 10 11 "ON" "TX" 100
    (by decide) (by decide) (by decide) (by decide)
  refine ⟨o, h1, ?_, ?_, ?_, ?_⟩
  · rw [h3]
    norm_num [storeAB, get_cart_items, priceOf, get_product_by_id]
  · rw [h2]
    rfl
  · rw [h5 1]
    rfl
  · rw [h5 2]
    rfl

/-! ### C10: checkout never consults Product.is_active -/

/-- C10: with valid addresses, a non-empty cart and sufficient stock, checkout
succeeds even when some line's product is inactive — create_order validates
only addresses, cart non-emptiness and stock, so the inactive product still
receives an OrderItem. -/
theorem create_order_ignores_is_active
    (s : Store) (uid ship bill : Nat) (onum txr : String) (oid : Nat)
    (hship : validate_address s uid ship = true)
    (hbill : validate_address s uid bill = true)
    (hne : ¬ get_cart_items s uid = [])
    (hsuff : ∀ it ∈ get_cart_items s uid, ∃ p, get_product_by_id s it.product_id = some p ∧
        (it.quantity : Int) ≤ p.stock_quantity)
    (hinact : ∃ it ∈ get_cart_items s uid, ∃ p, get_product_by_id s it.product_id = some p ∧
        p.is_active = false) :
    ∃ o, (create_order s uid ship bill onum txr oid).2 = .ok o ∧
      ∃ it ∈ get_cart_items s uid, ∃ p, get_product_by_id s it.product_id = some p ∧
        p.is_active = false ∧
        ({ order_id := oid, product_id := it.product_id,
           unit_price := priceOf s it.product_id, quantity := it.quantity } : OrderItem)
          ∈ (create_order s uid ship bill onum txr oid).1.order_items := by
  have hv := validate_stock_ok_of_sufficient s _ hsuff
  have hco := create_order_ok s uid ship bill onum txr oid hship hbill hne hv
  obtain ⟨it, hm, p, hp, hia⟩ := hinact
  refine ⟨_, by rw [hco], it, hm, p, hp, hia, ?_⟩
  rw [hco]
  exact List.mem_append_right _ (List.mem_map_of_mem _ hm)

theorem create_order_ignores_is_active_witness :
    (get_product_by_id storeInactive 1).map (fun p => p.is_active) = some false ∧
    ∃ o, (create_order storeInactive 1 10 11 "ON" "TX" 100).2 = .ok o := by
  have hsuff : ∀ it ∈ get_cart_items storeInactive 1,
      ∃ p, get_product_by_id storeInactive it.product_id = some p ∧
        (it.quantity : Int) ≤ p.stock_quantity := by
    intro it hit
    have hitems : get_cart_items storeInactive 1
        = [{ id := 5, cart_id := 1, product_id := 1, quantity := 1 }] := rfl
    rw [hitems] at hit
    rcases List.mem_singleton.1 hit with rfl
    exact ⟨{ id := 1, name := "Old", price := 3, stock_quantity := 5, is_active := false },
      rfl, by decide⟩
  have h := create_order_ignores_is_active storeInactive 1 10 11 "ON" "TX" 100
    (by decide) (by decide) (by decide) hsuff
    ⟨{ id := 5, cart_id := 1, product_id := 1, quantity := 1 }, by decide,
     { id := 1, name := "Old", price := 3, stock_quantity := 5, is_active := false },
     rfl, rfl⟩
  obtain ⟨o, ho, _⟩ := h
  exact ⟨by decide, o, ho⟩

/-! ### C9: add_item error cases and line merging -/

/-- C9 counterexample: in storeInactive product 1 is inactive yet in stock,
and add_item succeeds — the claimed ProductNotFound failure for inactive
products does not happen, because get_product_by_id has no is_active filter. -/
theorem add_item_inactive_succeeds :
    (get_product_by_id storeInactive 1).map (fun p => p.is_active) = some false ∧
    (add_item storeInactive 1 1 1 99).2
      = .ok ({ id := 5, cart_id := 1, product_id := 1, quantity := 2 } : CartItem) := by
  constructor
  · decide
  · rfl

/-- C9 amended: add_item fails with productNotFound exactly when the product
id matches no row (is_active is not consulted); fails with outOfStock when
stock is below the requested quantity; on success it either increments the
existing (cart, product) line in place — the line count does not grow, no
duplicate row — or appends one new line with the requested quantity. -/
theorem add_item_spec (s : Store) (cartId product_id quantity newId : Nat) :
    (get_product_by_id s product_id = none →
      add_item s cartId product_id quantity newId = (s, .error .productNotFound)) ∧
    (∀ prod, get_product_by_id s product_id = some prod →
      prod.stock_quantity < (quantity : Int) →
      add_item s cartId product_id quantity newId = (s, .error .outOfStock)) ∧
    (∀ prod existing, get_product_by_id s product_id = some prod →
      ¬ prod.stock_quantity < (quantity : Int) →
      get_cart_item_by_product s cartId prod.id = some existing →
      (add_item s cartId product_id quantity newId).2
          = .ok { existing with quantity := existing.quantity + quantity } ∧
      get_cart_item_by_product (add_item s cartId product_id quantity newId).1 cartId prod.id
          = some { existing with quantity := existing.quantity + quantity } ∧
      (add_item s cartId product_id quantity newId).1.cart_items.length
          = s.cart_items.length) ∧
    (∀ prod, get_product_by_id s product_id = some prod →
      ¬ prod.stock_quantity < (quantity : Int) →
      get_cart_item_by_product s cartId prod.id = none →
      add_item s cartId product_id quantity newId =
        ({ s with cart_items := s.cart_items ++
            [{ id := newId, cart_id := cartId, product_id := prod.id, quantity := quantity }] },
         .ok { id := newId, cart_id := cartId, product_id := prod.id, quantity := quantity })) := by
  refine ⟨?_, ?_, ?_, ?_⟩
  · intro h
    unfold add_item
    rw [h]
  · intro prod hp hlt
    unfold add_item
    rw [hp]
    exact if_pos hlt
  · intro prod ex hp hlt hex
    have h1 : add_item s cartId product_id quantity newId
        = (match get_cart_item_by_product s cartId prod.id with
           | some existing =>
             ({ s with cart_items := s.cart_items.map (fun it =>
                 if it.cart_id = cartId ∧ it.product_id = prod.id then
                   { it with quantity := it.quantity + quantity }
                 else it) },
              .ok { existing with quantity := existing.quantity + quantity })
           | none =>
             ({ s with cart_items := s.cart_items ++
                 [{ id := newId, cart_id := cartId, product_id := prod.id, quantity := quantity }] },
              .ok { id := newId, cart_id := cartId, product_id := prod.id,
                    quantity := quantity })) := by
      unfold add_item
      rw [hp]
      exact if_neg hlt
    rw [h1, hex]
    have hexp : ex.cart_id = cartId ∧ ex.product_id = prod.id := by
      have := List.find?_some hex
      simpa using this
    refine ⟨rfl, ?_, ?_⟩
    · show (s.cart_items.map (fun it =>
          if it.cart_id = cartId ∧ it.product_id = prod.id then
            { it with quantity := it.quantity + quantity }
          else it)).find? (fun it => decide (it.cart_id = cartId ∧ it.product_id = prod.id))
        = _
      rw [find?_map_pres (fun it : CartItem =>
            if it.cart_id = cartId ∧ it.product_id = prod.id then
              { it with quantity := it.quantity + quantity }
            else it)
          (fun it : CartItem => decide (it.cart_id = cartId ∧ it.product_id = prod.id))
          (fun x => by by_cases hx : x.cart_id = cartId ∧ x.product_id = prod.id
                       · simp only [if_pos hx]
                       · simp only [if_neg hx])]
      rw [show s.cart_items.find?
            (fun it => decide (it.cart_id = cartId ∧ it.product_id = prod.id)) = some ex from hex]
      rw [Option.map_some']
      rw [if_pos hexp]
    · exact List.length_map _ _
  · intro prod hp hlt hnone
    have h1 : add_item s cartId product_id quantity newId
        = (match get_cart_item_by_product s cartId prod.id with
           | some existing =>
             ({ s with cart_items := s.cart_items.map (fun it =>
                 if it.cart_id = cartId ∧ it.product_id = prod.id then
                   { it with quantity := it.quantity + quantity }
                 else it) },
              .ok { existing with quantity := existing.quantity + quantity })
           | none =>
             ({ s with cart_items := s.cart_items ++
                 [{ id := newId, cart_id := cartId, product_id := prod.id, quantity := quantity }] },
              .ok { id := newId, cart_id := cartId, product_id := prod.id,
                    quantity := quantity })) := by
      unfold add_item
      rw [hp]
      exact if_neg hlt
    rw [h1, hnone]

theorem add_item_spec_witness :
    (add_item storeAB 1 1 3 99).2
      = .ok ({ id := 5, cart_id := 1, product_id := 1, quantity := 5 } : CartItem) ∧
    (add_item storeAB 1 1 3 99).1.cart_items.length = storeAB.cart_items.length := by
  have h := (add_item_spec storeAB 1 1 3 99).2.2.1
    { id := 1, name := "A", price := 10, stock_quantity := 10, is_active := true }
    { id := 5, cart_id := 1, product_id := 1, quantity := 2 }
    rfl (by decide) rfl
  exact ⟨h.1, h.2.2⟩

/-! ### C3: stock_quantity never goes negative -/

theorem qtyTotal_eq_zero (items : List CartItem) (pid : Nat)
    (h : ∀ it ∈ items, ¬ it.product_id = pid) : qtyTotal items pid = 0 := by
  unfold qtyTotal
  rw [List.filter_eq_nil_iff.2 (fun a ha => by simpa using h a ha)]
  rfl

theorem qtyTotal_eq_of_mem_nodup (items : List CartItem)
    (hnd : (items.map (fun it => it.product_id)).Nodup) {it : CartItem} (hm : it ∈ items) :
    qtyTotal items it.product_id = it.quantity := by
  induction items with
  | nil => exact absurd hm (List.not_mem_nil it)
  | cons a rest ih =>
    have hnd' := hnd
    rw [List.map_cons] at hnd'
    have hhead : a.product_id ∉ rest.map (fun b => b.product_id) :=
      (List.nodup_cons.1 hnd').1
    rcases List.mem_cons.1 hm with rfl | hm'
    · rw [qtyTotal_cons, if_pos rfl,
        qtyTotal_eq_zero rest _ (fun b hb hbid =>
          hhead (by rw [← hbid]; exact List.mem_map_of_mem _ hb))]
      exact Nat.add_zero _
    · have hne : ¬ a.product_id = it.product_id := fun h =>
        hhead (h ▸ List.mem_map_of_mem _ hm')
      rw [qtyTotal_cons, if_neg hne, ih (List.nodup_cons.1 hnd').2 hm']
      exact Nat.zero_add _

theorem find_product_of_mem_nodup (ps : List Product)
    (hnd : (ps.map (fun p => p.id)).Nodup) {p : Product} (hp : p ∈ ps) :
    ps.find? (fun q => decide (q.id = p.id)) = some p := by
  induction ps with
  | nil => exact absurd hp (List.not_mem_nil p)
  | cons a rest ih =>
    have hnd' := hnd
    rw [List.map_cons] at hnd'
    rcases List.mem_cons.1 hp with rfl | hm
    · exact List.find?_cons_of_pos _ (by simp)
    · have hne : ¬ a.id = p.id := fun h =>
        (List.nodup_cons.1 hnd').1 (h ▸ List.mem_map_of_mem _ hm)
      rw [List.find?_cons_of_neg _ (by simpa using hne)]
      exact ih (List.nodup_cons.1 hnd').2 hm

theorem stockNonneg_of_products_eq {s t : Store} (h : t.products = s.products)
    (hs : stockNonneg s) : stockNonneg t := fun p hp => hs p (by rw [← h]; exact hp)

theorem add_item_products (s : Store) (cid pid q nid : Nat) :
    (add_item s cid pid q nid).1.products = s.products := by
  unfold add_item
  split
  · rfl
  · split
    · rfl
    · split <;> rfl

theorem update_item_products (s : Store) (cid iid q : Nat) :
    (update_item s cid iid q).1.products = s.products := by
  unfold update_item
  split <;> rfl

theorem remove_item_products (s : Store) (cid iid : Nat) :
    (remove_item s cid iid).1.products = s.products := rfl

theorem merge_carts_products (s : Store) (uid : Nat) (sid : String) :
    (merge_carts s uid sid).products = s.products := by
  unfold merge_carts
  split
  · rfl
  · split
    · rfl
    · rfl

theorem handle_webhook_products (s : Store) (k : EventKind) (txn : String) (now : Nat) :
    (handle_webhook s k txn now).1.products = s.products := by
  cases k
  · show (handle_successful_payment s txn now).products = s.products
    unfold handle_successful_payment
    split <;> rfl
  · show (handle_failed_payment s txn now).products = s.products
    unfold handle_failed_payment
    split <;> rfl
  · rfl

theorem create_payment_products (s : Store) (oid : Nat) (amt : ℚ) (txn : String) (nid : Nat) :
    (create_payment s oid amt txn nid).1.products = s.products := rfl

theorem get_or_create_cart_products (s : Store) (uid : Option Nat) (sid : Option String)
    (nid : Nat) : (get_or_create_cart s uid sid nid).1.products = s.products := by
  unfold get_or_create_cart
  split <;> split <;> rfl

/-- The checkout either leaves the store untouched (any validation error) or
reaches the deduction loop with validate_stock having succeeded. -/
theorem create_order_products_cases (s : Store) (uid ship bill : Nat)
    (onum txr : String) (oid : Nat) :
    (create_order s uid ship bill onum txr oid).1 = s ∨
    ((create_order s uid ship bill onum txr oid).1.products
        = deductStock s.products (get_cart_items s uid) ∧
      validate_stock s (get_cart_items s uid) = .ok ()) := by
  unfold create_order
  split
  · split
    · split
      · exact Or.inl rfl
      · split
        · exact Or.inl rfl
        · next u heq => exact Or.inr ⟨rfl, by cases u; exact heq⟩
    · exact Or.inl rfl
  · exact Or.inl rfl

/-- C3: starting from nonnegative stock (and primary-key-unique product rows),
every core operation preserves nonnegative stock.  Checkout — the only
operation that decrements — does so only after validate_stock has confirmed
stock covers every line; with at most one line per product (the cart's
(cart, product)-uniqueness invariant) the decremented values stay ≥ 0, and no
other operation touches the products table at all. -/
theorem stock_never_negative (s : Store) (hs : stockNonneg s)
    (hpid : (s.products.map (fun p => p.id)).Nodup) :
    (∀ uid ship bill onum txr oid,
        ((get_cart_items s uid).map (fun it => it.product_id)).Nodup →
        stockNonneg (create_order s uid ship bill onum txr oid).1) ∧
    (∀ cid pid q nid, stockNonneg (add_item s cid pid q nid).1) ∧
    (∀ cid iid q, stockNonneg (update_item s cid iid q).1) ∧
    (∀ cid iid, stockNonneg (remove_item s cid iid).1) ∧
    (∀ uid sid, stockNonneg (merge_carts s uid sid)) ∧
    (∀ k txn now, stockNonneg (handle_webhook s k txn now).1) ∧
    (∀ oid amt txn nid, stockNonneg (create_payment s oid amt txn nid).1) ∧
    (∀ uid sid nid, stockNonneg (get_or_create_cart s uid sid nid).1) := by
  refine ⟨?_, ?_, ?_, ?_, ?_, ?_, ?_, ?_⟩
  · intro uid ship bill onum txr oid hnd
    rcases create_order_products_cases s uid ship bill onum txr oid with h | ⟨hprod, hv⟩
    · rw [h]; exact hs
    · intro p' hp'
      rw [hprod, deductStock_eq_map] at hp'
      obtain ⟨p, hpm, rfl⟩ := List.mem_map.1 hp'
      show (0:ℤ) ≤ p.stock_quantity - (qtyTotal (get_cart_items s uid) p.id : Int)
      by_cases hex : ∃ it ∈ get_cart_items s uid, it.product_id = p.id
      · obtain ⟨it, hitm, hpid'⟩ := hex
        have hq : qtyTotal (get_cart_items s uid) p.id = it.quantity := by
          rw [← hpid']
          exact qtyTotal_eq_of_mem_nodup _ hnd hitm
        obtain ⟨pA, hpA, hle⟩ := validate_stock_ok_spec s _ hv it hitm
        have hpa : pA = p := by
          rw [hpid'] at hpA
          have h2 : s.products.find? (fun q => decide (q.id = p.id)) = some pA := hpA
          rw [find_product_of_mem_nodup s.products hpid hpm] at h2
          exact (Option.some.inj h2).symm
        rw [hq]
        have hle' : (it.quantity : Int) ≤ p.stock_quantity := hpa ▸ hle
        omega
      · rw [qtyTotal_eq_zero _ _ (fun b hb hbid => hex ⟨b, hb, hbid⟩)]
        have := hs p hpm
        omega
  · intro cid pid q nid
    exact stockNonneg_of_products_eq (add_item_products s cid pid q nid) hs
  · intro cid iid q
    exact stockNonneg_of_products_eq (update_item_products s cid iid q) hs
  · intro cid iid
    exact stockNonneg_of_products_eq (remove_item_products s cid iid) hs
  · intro uid sid
    exact stockNonneg_of_products_eq (merge_carts_products s uid sid) hs
  · intro k txn now
    exact stockNonneg_of_products_eq (handle_webhook_products s k txn now) hs
  · intro oid amt txn nid
    exact stockNonneg_of_products_eq (create_payment_products s oid amt txn nid) hs
  · intro uid sid nid
    exact stockNonneg_of_products_eq (get_or_create_cart_products s uid sid nid) hs

theorem stock_never_negative_witness :
    stockNonneg storeAB ∧
    stockNonneg (create_order storeAB 1 10 11 "ON" "TX" 100).1 ∧
    stockNonneg (merge_carts storeAB 7 "sess") := by
  have hsAB : stockNonneg storeAB := by
    intro p hp
    rcases List.mem_cons.1 hp with rfl | hp1
    · decide
    · rcases List.mem_cons.1 hp1 with rfl | hp2
      · decide
      · exact absurd hp2 (List.not_mem_nil p)
  have h := stock_never_negative storeAB hsAB (by decide)
  exact ⟨hsAB, h.1 1 10 11 "ON" "TX" 100 (by decide), h.2.2.2.2.1 7 "sess"⟩

/-! ### C5: functional behaviour of the cart merge -/

theorem qsum_cons (u pid : Nat) (x : CartItem) (l : List CartItem) :
    qsum u pid (x :: l)
      = (if x.cart_id = u ∧ x.product_id = pid then x.quantity else 0) + qsum u pid l := by
  by_cases h : x.cart_id = u ∧ x.product_id = pid <;>
    simp [qsum, List.filter_cons, h]

theorem qsum_filter_keep (u pid : Nat) (dead : List Nat) (hdead : ∀ d ∈ dead, ¬ d = u) :
    ∀ l : List CartItem,
      qsum u pid (l.filter (fun it => decide (¬ it.cart_id ∈ dead))) = qsum u pid l := by
  intro l
  induction l with
  | nil => rfl
  | cons x xs ih =>
    by_cases hin : x.cart_id ∈ dead
    · have hxu : ¬ (x.cart_id = u ∧ x.product_id = pid) := fun hc => hdead _ hin hc.1
      rw [List.filter_cons, if_neg (by simpa using hin), qsum_cons, if_neg hxu, ih]
      omega
    · rw [List.filter_cons, if_pos (by simpa using hin), qsum_cons, qsum_cons, ih]

theorem qsum_updateFirst_bump (u pp pid q : Nat) :
    ∀ l : List CartItem,
      (l.find? (fun it => decide (it.cart_id = u ∧ it.product_id = pp))).isSome →
      qsum u pid (updateFirst (fun it => decide (it.cart_id = u ∧ it.product_id = pp))
          (fun it => { it with quantity := it.quantity + q }) l)
        = qsum u pid l + (if pp = pid then q else 0) := by
  intro l
  induction l with
  | nil => intro h; exact absurd h (by simp)
  | cons x xs ih =>
    intro hfind
    by_cases hx : x.cart_id = u ∧ x.product_id = pp
    · rw [updateFirst_cons_pos (fun it : CartItem => decide (it.cart_id = u ∧ it.product_id = pp))
          (fun it : CartItem => { it with quantity := it.quantity + q }) (by simpa using hx)]
      rw [qsum_cons, qsum_cons]
      by_cases hpp : pp = pid
      · have hcond : x.cart_id = u ∧ x.product_id = pid := ⟨hx.1, hpp ▸ hx.2⟩
        rw [if_pos hcond, if_pos (show ({ x with quantity := x.quantity + q } : CartItem).cart_id = u
            ∧ ({ x with quantity := x.quantity + q } : CartItem).product_id = pid from hcond),
          if_pos hpp]
        show x.quantity + q + qsum u pid xs = x.quantity + qsum u pid xs + q
        omega
      · have hcond : ¬ (x.cart_id = u ∧ x.product_id = pid) := fun hc => hpp (by
          rw [← hx.2, hc.2])
        rw [if_neg hcond, if_neg (show ¬ (({ x with quantity := x.quantity + q } : CartItem).cart_id = u
            ∧ ({ x with quantity := x.quantity + q } : CartItem).product_id = pid) from hcond),
          if_neg hpp]
        omega
    · have hx' : decide (x.cart_id = u ∧ x.product_id = pp) = false := by
        simpa using hx
      rw [updateFirst_cons_neg (fun it : CartItem => decide (it.cart_id = u ∧ it.product_id = pp))
          (fun it : CartItem => { it with quantity := it.quantity + q }) hx']
      have hfind' : (xs.find? (fun it => decide (it.cart_id = u ∧ it.product_id = pp))).isSome := by
        rw [List.find?_cons_of_neg _ (by simpa using hx)] at hfind
        exact hfind
      rw [qsum_cons, qsum_cons, ih hfind']
      omega

theorem qsum_updateFirst_move (u pid : Nat) (a : CartItem) (hne : ¬ a.cart_id = u) :
    ∀ l : List CartItem, a ∈ l → ((l.map (fun it => it.id)).Nodup) →
      qsum u pid (updateFirst (fun it => decide (it.id = a.id))
          (fun it => { it with cart_id := u }) l)
        = qsum u pid l + (if a.product_id = pid then a.quantity else 0) := by
  intro l
  induction l with
  | nil => intro h; exact absurd h (List.not_mem_nil a)
  | cons x xs ih =>
    intro hmem hnd
    rw [List.map_cons] at hnd
    by_cases hx : x.id = a.id
    · have hxa : x = a := by
        rcases List.mem_cons.1 hmem with rfl | hm
        · rfl
        · exact absurd (hx ▸ List.mem_map_of_mem (fun it => it.id) hm)
            (List.nodup_cons.1 hnd).1
      subst hxa
      rw [updateFirst_cons_pos (fun it : CartItem => decide (it.id = x.id))
          (fun it : CartItem => { it with cart_id := u }) (by simp)]
      rw [qsum_cons, qsum_cons]
      have h2 : (if x.cart_id = u ∧ x.product_id = pid then x.quantity else 0) = 0 :=
        if_neg (fun hc => hne hc.1)
      rw [h2]
      by_cases hpp : x.product_id = pid
      · rw [if_pos (show ({ x with cart_id := u } : CartItem).cart_id = u
            ∧ ({ x with cart_id := u } : CartItem).product_id = pid from ⟨rfl, hpp⟩),
          if_pos hpp]
        show x.quantity + qsum u pid xs = 0 + qsum u pid xs + x.quantity
        omega
      · rw [if_neg (show ¬ (({ x with cart_id := u } : CartItem).cart_id = u
            ∧ ({ x with cart_id := u } : CartItem).product_id = pid) from fun hc => hpp hc.2),
          if_neg hpp]
        omega
    · have hm : a ∈ xs := by
        rcases List.mem_cons.1 hmem with rfl | hm'
        · exact absurd rfl hx
        · exact hm'
      rw [updateFirst_cons_neg (fun it : CartItem => decide (it.id = a.id))
          (fun it : CartItem => { it with cart_id := u }) (by simpa using hx)]
      rw [qsum_cons, qsum_cons, ih hm (List.nodup_cons.1 hnd).2]
      omega

theorem mergeStep_map_id (u : Nat) (items : List CartItem) (a : CartItem) :
    (mergeStep u items a).map (fun it => it.id) = items.map (fun it => it.id) := by
  unfold mergeStep
  cases hf : items.find? (fun it => decide (it.cart_id = u ∧ it.product_id = a.product_id)) with
  | some y =>
    exact updateFirst_map_key (fun it => it.id)
      (fun it => decide (it.cart_id = u ∧ it.product_id = a.product_id))
      (fun it => { it with quantity := it.quantity + a.quantity }) (fun x => rfl) items
  | none =>
    exact updateFirst_map_key (fun it => it.id)
      (fun it => decide (it.id = a.id))
      (fun it => { it with cart_id := u }) (fun x => rfl) items

theorem qtyTotal_filter_cart (cid pid : Nat) (l : List CartItem) :
    qtyTotal (l.filter (fun it => decide (it.cart_id = cid))) pid = qsum cid pid l := by
  induction l with
  | nil => rfl
  | cons x xs ih =>
    by_cases hc : x.cart_id = cid
    · rw [List.filter_cons, if_pos (by simpa using hc), qtyTotal_cons, qsum_cons, ih]
      by_cases hp : x.product_id = pid
      · rw [if_pos hp, if_pos ⟨hc, hp⟩]
      · rw [if_neg hp, if_neg (fun h => hp h.2)]
    · rw [List.filter_cons, if_neg (by simpa using hc), qsum_cons,
        if_neg (fun h => hc h.1), ih]
      omega

/-- Quantity accounting for the merge loop: folding mergeStep over the
anonymous lines adds, for every product, exactly the anonymous lines' total
quantity to the user cart — whether a line is merged into an existing row or
moved across. -/
theorem mergeLoop_qsum (u anonId : Nat) (hne : ¬ anonId = u) :
    ∀ (as items : List CartItem),
      (∀ a ∈ as, a ∈ items ∧ a.cart_id = anonId) →
      ((items.map (fun it => it.id)).Nodup) →
      ((as.map (fun it => it.id)).Nodup) →
      ∀ pid, qsum u pid (as.foldl (mergeStep u) items)
        = qsum u pid items + qtyTotal as pid := by
  intro as
  induction as with
  | nil =>
    intro items _ _ _ pid
    have h0 : qtyTotal ([] : List CartItem) pid = 0 := rfl
    show qsum u pid items = qsum u pid items + qtyTotal [] pid
    omega
  | cons a rest ih =>
    intro items hmem hndI hndA pid
    have hacart : a.cart_id = anonId := (hmem a (List.mem_cons_self a rest)).2
    have hamem : a ∈ items := (hmem a (List.mem_cons_self a rest)).1
    have hnea : ¬ a.cart_id = u := fun h => hne (by rw [← hacart]; exact h)
    have hstep : ∀ pid', qsum u pid' (mergeStep u items a)
        = qsum u pid' items + (if a.product_id = pid' then a.quantity else 0) := by
      intro pid'
      unfold mergeStep
      cases hf : items.find? (fun it => decide (it.cart_id = u ∧ it.product_id = a.product_id)) with
      | some y =>
        exact qsum_updateFirst_bump u a.product_id pid' a.quantity items (by rw [hf]; rfl)
      | none =>
        exact qsum_updateFirst_move u pid' a hnea items hamem hndI
    have hmem' : ∀ b ∈ rest, b ∈ mergeStep u items a ∧ b.cart_id = anonId := by
      intro b hb
      have hbfull := hmem b (List.mem_cons_of_mem a hb)
      refine ⟨?_, hbfull.2⟩
      unfold mergeStep
      cases hf : items.find? (fun it => decide (it.cart_id = u ∧ it.product_id = a.product_id)) with
      | some y =>
        apply mem_updateFirst_of_neg
        · simp only [decide_eq_false_iff_not]
          intro hc
          exact hne (by rw [← hbfull.2]; exact hc.1)
        · exact hbfull.1
      | none =>
        apply mem_updateFirst_of_neg
        · rw [List.map_cons] at hndA
          have hida : a.id ∉ rest.map (fun it => it.id) := (List.nodup_cons.1 hndA).1
          simp only [decide_eq_false_iff_not]
          intro h
          exact hida (h ▸ List.mem_map_of_mem (fun it => it.id) hb)
        · exact hbfull.1
    have hndI' : ((mergeStep u items a).map (fun it => it.id)).Nodup := by
      rw [mergeStep_map_id]
      exact hndI
    have hndA' : (rest.map (fun it => it.id)).Nodup := by
      rw [List.map_cons] at hndA
      exact (List.nodup_cons.1 hndA).2
    show qsum u pid (List.foldl (mergeStep u) (mergeStep u items a) rest) = _
    rw [ih (mergeStep u items a) hmem' hndI' hndA' pid, hstep pid, qtyTotal_cons]
    omega

/-- C5: CartService.merge_carts implements the specified policy: (1) without
an anonymous cart it is a no-op; (2) with an anonymous cart but no user cart,
the anonymous cart is re-keyed to the user with its session cleared and no
line is copied; (3) with both carts, every product's quantity in the user
cart becomes the sum of both carts' quantities for it (lines merged into
existing rows or moved over), and no cart for the session survives. -/
theorem merge_carts_spec (s : Store) (uid : Nat) (sid : String) :
    (get_cart_by_session_id s sid = none → merge_carts s uid sid = s) ∧
    (∀ anon, get_cart_by_session_id s sid = some anon →
      get_cart_by_user_id s uid = none →
      (merge_carts s uid sid).cart_items = s.cart_items ∧
      (merge_carts s uid sid).carts.length = s.carts.length ∧
      ∃ c ∈ (merge_carts s uid sid).carts,
        c.id = anon.id ∧ c.user_id = some uid ∧ c.session_id = none) ∧
    (∀ anon ucart, get_cart_by_session_id s sid = some anon →
      get_cart_by_user_id s uid = some ucart →
      (∀ c ∈ s.carts, c.session_id = some sid → ¬ c.id = ucart.id) →
      ((s.cart_items.map (fun it => it.id)).Nodup) →
      (∀ pid, qsum ucart.id pid (merge_carts s uid sid).cart_items
          = qsum ucart.id pid s.cart_items + qsum anon.id pid s.cart_items) ∧
      get_cart_by_session_id (merge_carts s uid sid) sid = none) := by
  refine ⟨merge_carts_of_no_anon s uid sid, ?_, ?_⟩
  · intro anon hanon hu
    have hme : merge_carts s uid sid = update_anon_cart_to_user_cart s uid sid := by
      unfold merge_carts
      rw [hanon, hu]
    have hanmem : anon ∈ s.carts := List.mem_of_find?_eq_some hanon
    have hansid : anon.session_id = some sid := by simpa using List.find?_some hanon
    refine ⟨by rw [hme]; rfl, by rw [hme]; exact List.length_map _ _, ?_⟩
    rw [hme]
    refine ⟨{ anon with user_id := some uid, session_id := none }, ?_, rfl, rfl, rfl⟩
    have hstep := List.mem_map_of_mem (fun c : Cart =>
      if c.session_id = some sid then
        ({ c with user_id := some uid, session_id := none } : Cart) else c) hanmem
    simp only [hansid, if_true] at hstep
    exact hstep
  · intro anon ucart hanon hu hsid hnd
    have hanmem : anon ∈ s.carts := List.mem_of_find?_eq_some hanon
    have hansid : anon.session_id = some sid := by simpa using List.find?_some hanon
    have hne_au : ¬ anon.id = ucart.id := hsid anon hanmem hansid
    have hme : merge_carts s uid sid
        = remove_anon_cart
            { s with
              cart_items := List.foldl (mergeStep ucart.id) s.cart_items
                (s.cart_items.filter (fun it => decide (it.cart_id = anon.id))) }
            sid := by
      unfold merge_carts
      rw [hanon, hu]
    refine ⟨?_, get_session_merge_carts s uid sid⟩
    intro pid
    rw [hme]
    have hdead : ∀ d ∈ (s.carts.filter (fun c => decide (c.session_id = some sid))).map
        (fun c => c.id), ¬ d = ucart.id := by
      intro d hd
      obtain ⟨c, hc, rfl⟩ := List.mem_map.1 hd
      have hc' := List.mem_filter.1 hc
      exact hsid c hc'.1 (by simpa using hc'.2)
    show qsum ucart.id pid ((List.foldl (mergeStep ucart.id) s.cart_items
        (s.cart_items.filter (fun it => decide (it.cart_id = anon.id)))).filter
        (fun it => decide (¬ it.cart_id ∈ (s.carts.filter
          (fun c => decide (c.session_id = some sid))).map (fun c => c.id)))) = _
    rw [qsum_filter_keep ucart.id pid _ hdead]
    have hmem0 : ∀ a ∈ s.cart_items.filter (fun it => decide (it.cart_id = anon.id)),
        a ∈ s.cart_items ∧ a.cart_id = anon.id := by
      intro a ha
      have hm := List.mem_filter.1 ha
      exact ⟨hm.1, by simpa using hm.2⟩
    have hndA : ((s.cart_items.filter (fun it => decide (it.cart_id = anon.id))).map
        (fun it => it.id)).Nodup :=
      List.Nodup.sublist ((List.filter_sublist _).map _) hnd
    rw [mergeLoop_qsum ucart.id anon.id hne_au _ _ hmem0 hnd hndA pid]
    rw [qtyTotal_filter_cart]

theorem merge_carts_spec_witness :
    qsum 1 42 (merge_carts storeMerge 7 "sess").cart_items = 3 ∧
    get_cart_by_session_id (merge_carts storeMerge 7 "sess") "sess" = none := by
  have h := (merge_carts_spec storeMerge 7 "sess").2.2
    { id := 2, user_id := none, session_id := some "sess" }
    { id := 1, user_id := some 7, session_id := none }
    rfl rfl (by decide) (by decide)
  refine ⟨?_, h.2⟩
  rw [h.1 42]
  decide

end ECom
